import Mathlib

/-!
Verification of the splunk-cli search-job orchestration core.

Shallow embedding of the Go sources:
  * `main.go`   (`runSearch`: command-line front end, unbounded poll loop),
  * `mcp.go`    (`searchHandler`: tool-call front end, 60-second deadline),
  * `internal/splunk` client (`doRequest`, `RunSearch`, `GetSearchStatus`,
    `GetSearchResults`).

Strings are modelled as `List Char`.  The remote service, the JSON decoder
and the process-level cancellation signal are modelled by an explicit
environment (`Env`): the n-th status request of a run receives the HTTP
outcome `Env.statusHttp n`, decoding a body is delegated to the decode
oracles, and `Env.cancelAt = some k` means the surrounding context is
cancelled from (just before) the k-th status request on.  As in Go's
`net/http`, a request made with a cancelled context fails at the transport
layer before any network activity; the Go error detail is abstracted to
the literal text `context canceled`.  Time is idealised: requests take no
time and the tool-call ticker fires at 2, 4, 6, ... time units while the
timeout channel fires at 60; at the single possible simultaneous-readiness
point (time 60) Go's `select` chooses randomly, which is modelled by the
`Env.timeoutFirst` flag.  Result-row values are represented by their final
`%v` rendering, since no claim inspects their structure.
-/

namespace SplunkCLI

/-- Go's `unicode.IsSpace` (the White_Space property), used by
`strings.TrimSpace`. -/
def isSpaceGo (c : Char) : Bool :=
  let n := c.toNat
  (n == 32) || (decide (9 ≤ n) && decide (n ≤ 13)) || (n == 133) || (n == 160) ||
  (n == 5760) || (decide (8192 ≤ n) && decide (n ≤ 8202)) || (n == 8232) ||
  (n == 8233) || (n == 8239) || (n == 8287) || (n == 12288)

/-- Leading-whitespace trim. -/
def trimLeftSpace (l : List Char) : List Char := l.dropWhile isSpaceGo

/-- Trailing-whitespace trim. -/
def trimRightSpace (l : List Char) : List Char := (l.reverse.dropWhile isSpaceGo).reverse

/-- Go's `strings.TrimSpace`. -/
def trimSpace (l : List Char) : List Char := trimRightSpace (trimLeftSpace l)

def searchKw : List Char := "search".toList

def pipeTok : List Char := "|".toList

def kwSpace : List Char := "search ".toList

/-- The query normalization performed identically at `main.go:156-158` and
`mcp.go:147-149`: if the trimmed query starts neither with `search` nor with
`|`, prepend `search ` to the original (untrimmed) query. -/
def normalizeQuery (query : List Char) : List Char :=
  if !(searchKw.isPrefixOf (trimSpace query)) && !(pipeTok.isPrefixOf (trimSpace query))
  then kwSpace ++ query
  else query

/-- `splunk.Search.Content`: the job-status snapshot. -/
structure JobStatus where
  isDone : Bool
  resultCount : Int
  eventCount : Int
  dispatchState : List Char

/-- The error taxonomy of the client: transport failure (including a request
attempted on a cancelled context), non-success HTTP status with code and body
preserved (`doRequest`), and JSON decode failure. -/
inductive SplunkError where
  | transportFailure (msg : List Char)
  | remoteRejected (status : Nat) (body : List Char)
  | decodeFailure (msg : List Char)

/-- A decoded result row: field/value pairs in the order chosen by Go's map
iteration (which is unspecified; see the rendering theorems). A value is
represented by its `%v` rendering. -/
abbrev ResultRow := List (List Char × List Char)

/-- `splunk.SearchResult`. -/
structure SearchResult where
  results : List ResultRow

/-- What the HTTP transport yields for one request: a transport-level failure
or a response with status code and body. -/
inductive HttpOutcome where
  | transportErr (msg : List Char)
  | response (status : Nat) (body : List Char)

/-- The external world of one invocation: remote responses, decode oracles,
and the cancellation signal.  `statusHttp n` is the response to the n-th
status request (the only repeated request of a run). -/
structure Env where
  submitHttp : List Char → HttpOutcome
  decodeSid : List Char → Except (List Char) (List Char)
  statusHttp : Nat → HttpOutcome
  decodeStatus : List Char → Except (List Char) JobStatus
  fetchHttp : HttpOutcome
  decodeResults : List Char → Except (List Char) SearchResult
  cancelAt : Option Nat
  timeoutFirst : Bool

def ctxCanceledText : List Char := "context canceled".toList

/-- `splunk.Client.doRequest`: a request on a cancelled context fails in the
transport; otherwise a transport error surfaces as such, and a response with
status `>= 400` becomes an error preserving status code and body. -/
def doRequest (cancelled : Bool) (h : HttpOutcome) : Except SplunkError (List Char) :=
  if cancelled then .error (.transportFailure ctxCanceledText)
  else
    match h with
    | .transportErr m => .error (.transportFailure m)
    | .response st body =>
      if 400 ≤ st then .error (.remoteRejected st body) else .ok body

/-- Whether the context has been cancelled by the time of the n-th status
request. -/
def cancelledAt (env : Env) (n : Nat) : Bool :=
  match env.cancelAt with
  | some k => decide (k ≤ n)
  | none => false

/-- `splunk.Client.RunSearch`: submit the (already normalized) query, decode
the returned sid. -/
def runSearchCall (env : Env) (query : List Char) : Except SplunkError (List Char) :=
  match doRequest false (env.submitHttp query) with
  | .error e => .error e
  | .ok body =>
    match env.decodeSid body with
    | .error m => .error (.decodeFailure m)
    | .ok sid => .ok sid

/-- `splunk.Client.GetSearchStatus` for the n-th status request of a run. -/
def getSearchStatus (env : Env) (n : Nat) : Except SplunkError JobStatus :=
  match doRequest (cancelledAt env n) (env.statusHttp n) with
  | .error e => .error e
  | .ok body =>
    match env.decodeStatus body with
    | .error m => .error (.decodeFailure m)
    | .ok s => .ok s

/-- The request path built by `splunk.Client.GetSearchResults`: the `count`
parameter is appended exactly when `count > 0`. -/
def searchResultsPath (sid : List Char) (count : Int) : List Char :=
  let path := "/services/search/jobs/".toList ++ sid ++ "/results?output_mode=json".toList
  if 0 < count then path ++ "&count=".toList ++ (toString count).toList else path

/-- The decoded outcome of the single results request of a run (the remote
response does not depend on the requested page size). -/
def fetchResult (env : Env) : Except SplunkError SearchResult :=
  match doRequest false env.fetchHttp with
  | .error e => .error e
  | .ok body =>
    match env.decodeResults body with
    | .error m => .error (.decodeFailure m)
    | .ok r => .ok r

/-- `splunk.Client.GetSearchResults`: the issued path and the decoded result. -/
def getSearchResults (env : Env) (sid : List Char) (count : Int) :
    List Char × Except SplunkError SearchResult :=
  (searchResultsPath sid count, fetchResult env)

/-- The `Error()` text of a client error, as produced by the `fmt.Errorf`
wrappers in `internal/splunk`. -/
def errMsg : SplunkError → List Char
  | .transportFailure m => "failed to execute request: ".toList ++ m
  | .remoteRejected st body =>
    "API request failed with status ".toList ++ (toString st).toList ++ ": ".toList ++ body
  | .decodeFailure m => "failed to decode response: ".toList ++ m

/-- One `  key: value` line of a rendered result row (both front ends). -/
def fieldLine (kv : List Char × List Char) : List Char :=
  "  ".toList ++ kv.1 ++ ": ".toList ++ kv.2 ++ "\n".toList

/-- The block printed for the i-th result row (0-based; displayed 1-based),
with the row's fields in the given iteration order. -/
def rowBlock (i : Nat) (row : ResultRow) : List Char :=
  "Result ".toList ++ (toString (i + 1)).toList ++ ":\n".toList ++
    (row.map fieldLine).flatten ++ "\n".toList

/-- `for i, result := range results.Results { ... }`: row blocks in server
order starting at index `i`. -/
def renderFrom (i : Nat) : List ResultRow → List Char
  | [] => []
  | r :: rs => rowBlock i r ++ renderFrom (i + 1) rs

/-- The rendered result blocks of a whole result set. -/
def renderAll (rows : List ResultRow) : List Char := renderFrom 0 rows

/-- The tool-call success header `Search completed. Found %d result(s).`. -/
def mcpHeader (rc : Int) : List Char :=
  "Search completed. Found ".toList ++ (toString rc).toList ++ " result(s).\n\n".toList

/-- `mcp.CallToolResult`, reduced to the error flag and the embedded text. -/
structure CallToolResult where
  isError : Bool
  text : List Char

/-- `mcp.NewToolResultError`. -/
def toolErr (m : List Char) : CallToolResult := ⟨true, m⟩

/-- `mcp.NewToolResultText`. -/
def toolText (m : List Char) : CallToolResult := ⟨false, m⟩

/-- The arguments of a `search` tool call (`RequireString "query"`,
`GetString`/`GetInt` with defaults). -/
structure CallToolRequest where
  query : Option (List Char)
  earliestTime : Option (List Char)
  latestTime : Option (List Char)
  maxResults : Option Int

/-- Terminal value of a command-line run. -/
inductive Outcome where
  | success (resultCount : Int) (rows : List ResultRow)
  | submitError (e : SplunkError)
  | pollError (e : SplunkError)
  | fetchError (e : SplunkError)
  | outOfFuel

/-- Observable summary of one poll loop: number of status requests issued,
the times (in seconds from submission) at which they were issued, whether the
Result Fetcher was invoked, and the loop's value. -/
structure LoopRes (α : Type) where
  reqs : Nat
  times : List Nat
  fetched : Bool
  out : α

/-- Account for one earlier non-terminal tick at time `t`. -/
def stepPre {α : Type} (t : Nat) (r : LoopRes α) : LoopRes α :=
  ⟨r.reqs + 1, t :: r.times, r.fetched, r.out⟩

/-- Account for a list of earlier non-terminal ticks. -/
def prependRun {α : Type} (ts : List Nat) (r : LoopRes α) : LoopRes α :=
  ⟨r.reqs + ts.length, ts ++ r.times, r.fetched, r.out⟩

/-- `[2*n, 2*(n+1), ..., 2*(n+j-1)]`: the times of `j` consecutive status
requests when request `n` happens at time `2*n`. -/
def pollTimes (n : Nat) : Nat → List Nat
  | 0 => []
  | j + 1 => 2 * n :: pollTimes (n + 1) j

def timeoutText : List Char := "Search timed out after 60 seconds".toList

def statusFailText : List Char := "Failed to get search status: ".toList

def resultsFailText : List Char := "Failed to get search results: ".toList

def runFailText : List Char := "Failed to run search: ".toList

/-- Detail text of the protocol library's missing-argument error
(`request.RequireString`); external to this repository, content immaterial. -/
def requireQueryDetail : List Char := "required argument \x22query\x22 not found".toList

def missingQueryText : List Char :=
  "Missing or invalid \x27query\x27 argument: ".toList ++ requireQueryDetail

/-- The poll loop of `runSearch` (`main.go:171-184`): check status first, on
not-done sleep 2 seconds and repeat; unbounded, so modelled with fuel.
Request `n` is issued at time `2*n`.  On done the Result Fetcher is invoked
with page size 100. -/
def cliLoop (env : Env) (sid : List Char) : Nat → Nat → LoopRes Outcome
  | _, 0 => ⟨0, [], false, .outOfFuel⟩
  | n, fuel + 1 =>
    match getSearchStatus env n with
    | .error e => ⟨1, [2 * n], false, .pollError e⟩
    | .ok s =>
      if s.isDone then
        match (getSearchResults env sid 100).2 with
        | .error e => ⟨1, [2 * n], true, .fetchError e⟩
        | .ok r => ⟨1, [2 * n], true, .success s.resultCount r.results⟩
      else stepPre (2 * n) (cliLoop env sid (n + 1) fuel)

/-- Observable summary of a command-line `runSearch` invocation. -/
structure CliRun where
  submitted : List Char
  statusReqs : Nat
  reqTimes : List Nat
  fetched : Bool
  outcome : Outcome

/-- `runSearch` (`main.go:154-202`): normalize, submit, poll, fetch. -/
def runSearchModel (env : Env) (fuel : Nat) (query : List Char) : CliRun :=
  let q := normalizeQuery query
  match runSearchCall env q with
  | .error e => ⟨q, 0, [], false, .submitError e⟩
  | .ok sid =>
    let r := cliLoop env sid 0 fuel
    ⟨q, r.reqs, r.times, r.fetched, r.out⟩

/-- How many ticker fires the tool-call loop can process before the timeout
channel wins the `select`: ticks fire at 2..58 strictly before the 60-unit
deadline, and the tick at exactly 60 races the timeout (`Env.timeoutFirst`
resolves that race). -/
def mcpBudget (env : Env) : Nat := if env.timeoutFirst then 29 else 30

/-- The poll loop of `searchHandler` (`mcp.go:157-194`): wait for a ticker
fire, then check status; request `n` is issued at time `2*(n+1)`.  When the
remaining tick budget is exhausted the timeout case fires.  On done the
Result Fetcher is invoked with the requested page size. -/
def mcpLoop (env : Env) (sid : List Char) (maxR : Int) : Nat → Nat → LoopRes CallToolResult
  | _, 0 => ⟨0, [], false, toolErr timeoutText⟩
  | n, rem + 1 =>
    match getSearchStatus env n with
    | .error e => ⟨1, [2 * (n + 1)], false, toolErr (statusFailText ++ errMsg e)⟩
    | .ok s =>
      if s.isDone then
        match (getSearchResults env sid maxR).2 with
        | .error e => ⟨1, [2 * (n + 1)], true, toolErr (resultsFailText ++ errMsg e)⟩
        | .ok r =>
          ⟨1, [2 * (n + 1)], true, toolText (mcpHeader s.resultCount ++ renderAll r.results)⟩
      else stepPre (2 * (n + 1)) (mcpLoop env sid maxR (n + 1) rem)

/-- Observable summary of a `searchHandler` tool call.  `result` keeps the Go
return pair's shape: `.ok r` is `return r, nil`; the handler never produces
`.error`. -/
structure SHRun where
  submitted : Option (List Char)
  statusReqs : Nat
  reqTimes : List Nat
  fetched : Bool
  result : Except Unit CallToolResult

/-- `searchHandler` (`mcp.go:136-195`): require the query argument, read the
optional arguments, normalize, submit, poll with the 60-second deadline, and
render; every failure becomes an error-flagged tool result returned with a
nil Go error. -/
def searchHandler (env : Env) (req : CallToolRequest) : SHRun :=
  match req.query with
  | none => ⟨none, 0, [], false, .ok (toolErr missingQueryText)⟩
  | some q0 =>
    let maxR := req.maxResults.getD 100
    let q := normalizeQuery q0
    match runSearchCall env q with
    | .error e => ⟨some q, 0, [], false, .ok (toolErr (runFailText ++ errMsg e))⟩
    | .ok sid =>
      let r := mcpLoop env sid maxR 0 (mcpBudget env)
      ⟨some q, r.reqs, r.times, r.fetched, .ok r.out⟩

/-- Bool form of "the n-th status request returns a snapshot that is not yet
done" (the condition under which either loop keeps polling). -/
def okNotDone (env : Env) (n : Nat) : Bool :=
  match getSearchStatus env n with
  | .ok s => !s.isDone
  | .error _ => false

/- Concrete sample environments for witnesses and counterexamples. -/

def statusRunning : JobStatus := ⟨false, 0, 0, "RUNNING".toList⟩

def statusDone3 : JobStatus := ⟨true, 3, 3, "DONE".toList⟩

def okRows : List ResultRow := [[("host".toList, "web1".toList)]]

def sidOne : List Char := "sid1".toList

/-- A healthy remote: submission succeeds, the first snapshot is done with
three results, fetching succeeds. -/
def envOk : Env :=
  ⟨fun _ => .response 201 ("sb".toList), fun _ => .ok sidOne,
   fun _ => .response 200 ("st".toList), fun _ => .ok statusDone3,
   .response 200 ("rb".toList), fun _ => .ok ⟨okRows⟩, none, false⟩

/-- A job that never reports done. -/
def envRun : Env :=
  ⟨fun _ => .response 201 ("sb".toList), fun _ => .ok sidOne,
   fun _ => .response 200 ("st".toList), fun _ => .ok statusRunning,
   .response 200 ("rb".toList), fun _ => .ok ⟨okRows⟩, none, true⟩

/-- Every status request is rejected with HTTP 500 and body `boom`. -/
def envHttp500 : Env :=
  ⟨fun _ => .response 201 ("sb".toList), fun _ => .ok sidOne,
   fun _ => .response 500 ("boom".toList), fun _ => .ok statusRunning,
   .response 200 ("rb".toList), fun _ => .ok ⟨okRows⟩, none, false⟩

/-- A never-done job whose surrounding context is cancelled between the first
and the second tick (before status request 1). -/
def envCancel1 : Env :=
  ⟨fun _ => .response 201 ("sb".toList), fun _ => .ok sidOne,
   fun _ => .response 200 ("st".toList), fun _ => .ok statusRunning,
   .response 200 ("rb".toList), fun _ => .ok ⟨okRows⟩, some 1, false⟩

/-- Submission itself fails in the transport. -/
def envSubmitFail : Env :=
  ⟨fun _ => .transportErr ("no route to host".toList), fun _ => .ok sidOne,
   fun _ => .response 200 ("st".toList), fun _ => .ok statusDone3,
   .response 200 ("rb".toList), fun _ => .ok ⟨okRows⟩, none, false⟩

/-- The job completes but the results request is rejected with HTTP 503. -/
def envFetchFail : Env :=
  ⟨fun _ => .response 201 ("sb".toList), fun _ => .ok sidOne,
   fun _ => .response 200 ("st".toList), fun _ => .ok statusDone3,
   .response 503 ("busy".toList), fun _ => .ok ⟨okRows⟩, none, false⟩

def qError : List Char := "error".toList

/-- A tool call carrying only the query argument. -/
def reqQ (q : List Char) : CallToolRequest := ⟨some q, none, none, none⟩

/-- A two-field result row in one iteration order of the underlying Go map. -/
def rowAB : ResultRow := [("a".toList, "1".toList), ("b".toList, "2".toList)]

/-- The same row visited in the other iteration order. -/
def rowBA : ResultRow := [("b".toList, "2".toList), ("a".toList, "1".toList)]

/- Helper lemmas. -/

theorem dropWhile_append_eq {α : Type} [DecidableEq α] (p : α → Bool) (l₁ l₂ : List α) :
    (l₁ ++ l₂).dropWhile p =
      if l₁.dropWhile p = [] then l₂.dropWhile p else l₁.dropWhile p ++ l₂ := by
  induction l₁ with
  | nil => simp
  | cons a l ih =>
    by_cases h : p a = true
    · simpa [List.dropWhile_cons, h] using ih
    · simp [List.dropWhile_cons, h]

theorem isPrefixOf_self_append (l t : List Char) : l.isPrefixOf (l ++ t) = true := by
  rw [List.isPrefixOf_iff_prefix]
  exact List.prefix_append l t

/-- Prepending `search ` makes the keyword a prefix of the trimmed result:
trimming never reaches into the keyword because its head is not whitespace
and its characters are not whitespace. -/
theorem kw_prefix_trim_prepend (q : List Char) :
    searchKw.isPrefixOf (trimSpace (kwSpace ++ q)) = true := by
  have hleft : trimLeftSpace (kwSpace ++ q) = kwSpace ++ q := by
    have h : kwSpace ++ q = 's' :: ("earch ".toList ++ q) := rfl
    rw [h, trimLeftSpace, List.dropWhile_cons]
    simp [show isSpaceGo 's' = false from by decide]
  rw [trimSpace, hleft, trimRightSpace, List.reverse_append,
    dropWhile_append_eq isSpaceGo q.reverse kwSpace.reverse]
  by_cases h : q.reverse.dropWhile isSpaceGo = []
  · rw [if_pos h]
    decide
  · rw [if_neg h, List.reverse_append, List.reverse_reverse,
      show kwSpace = searchKw ++ " ".toList from rfl, List.append_assoc]
    exact isPrefixOf_self_append _ _

theorem pollTimes_length (j n : Nat) : (pollTimes n j).length = j := by
  induction j generalizing n with
  | zero => rfl
  | succ j ih => simp [pollTimes, ih]

theorem pollTimes_shift_map (j n : Nat) :
    pollTimes (n + 1) j = (pollTimes n j).map (· + 2) := by
  induction j generalizing n with
  | zero => rfl
  | succ j ih =>
    simp only [pollTimes, List.map_cons]
    rw [ih (n + 1)]
    congr 1

theorem stepPre_prependRun {α : Type} (t : Nat) (ts : List Nat) (r : LoopRes α) :
    stepPre t (prependRun ts r) = prependRun (t :: ts) r := by
  simp [stepPre, prependRun, Nat.add_assoc]

theorem okNotDone_eq_true {env : Env} {n : Nat} (h : okNotDone env n = true) :
    ∃ s, getSearchStatus env n = .ok s ∧ s.isDone = false := by
  unfold okNotDone at h
  rcases hg : getSearchStatus env n with e | s
  · rw [hg] at h
    exact absurd h (by simp)
  · rw [hg] at h
    exact ⟨s, rfl, by simpa using h⟩

theorem cliLoop_error_step (env : Env) (sid : List Char) (n fuel : Nat) {e : SplunkError}
    (hg : getSearchStatus env n = .error e) :
    cliLoop env sid n (fuel + 1) = ⟨1, [2 * n], false, .pollError e⟩ := by
  simp [cliLoop, hg]

theorem cliLoop_done_step (env : Env) (sid : List Char) (n fuel : Nat) {s : JobStatus}
    (hg : getSearchStatus env n = .ok s) (hd : s.isDone = true) :
    cliLoop env sid n (fuel + 1) =
      match fetchResult env with
      | .error e => ⟨1, [2 * n], true, .fetchError e⟩
      | .ok r => ⟨1, [2 * n], true, .success s.resultCount r.results⟩ := by
  simp [cliLoop, hg, hd, getSearchResults]

theorem mcpLoop_error_step (env : Env) (sid : List Char) (maxR : Int) (n rem : Nat)
    {e : SplunkError} (hg : getSearchStatus env n = .error e) :
    mcpLoop env sid maxR n (rem + 1) =
      ⟨1, [2 * (n + 1)], false, toolErr (statusFailText ++ errMsg e)⟩ := by
  simp [mcpLoop, hg]

theorem mcpLoop_done_step (env : Env) (sid : List Char) (maxR : Int) (n rem : Nat)
    {s : JobStatus} (hg : getSearchStatus env n = .ok s) (hd : s.isDone = true) :
    mcpLoop env sid maxR n (rem + 1) =
      match fetchResult env with
      | .error e => ⟨1, [2 * (n + 1)], true, toolErr (resultsFailText ++ errMsg e)⟩
      | .ok r =>
        ⟨1, [2 * (n + 1)], true, toolText (mcpHeader s.resultCount ++ renderAll r.results)⟩ := by
  simp [mcpLoop, hg, hd, getSearchResults]

theorem cliLoop_shift (env : Env) (sid : List Char) :
    ∀ (j n fuel : Nat), (∀ m, m < j → okNotDone env (n + m) = true) →
      cliLoop env sid n (j + fuel) = prependRun (pollTimes n j) (cliLoop env sid (n + j) fuel) := by
  intro j
  induction j with
  | zero =>
    intro n fuel _
    simp [pollTimes, prependRun]
  | succ j ih =>
    intro n fuel h
    obtain ⟨s, hg, hd⟩ := okNotDone_eq_true (by simpa using h 0 (Nat.succ_pos j))
    rw [show j + 1 + fuel = (j + fuel) + 1 from by omega]
    rw [show n + (j + 1) = (n + 1) + j from by omega]
    have hrec : ∀ m, m < j → okNotDone env ((n + 1) + m) = true := fun m hm => by
      have := h (m + 1) (by omega)
      rwa [show n + (m + 1) = (n + 1) + m from by omega] at this
    simp only [cliLoop, hg, hd]
    rw [ih (n + 1) fuel hrec, stepPre_prependRun]
    rfl

theorem mcpLoop_shift (env : Env) (sid : List Char) (maxR : Int) :
    ∀ (j n fuel : Nat), (∀ m, m < j → okNotDone env (n + m) = true) →
      mcpLoop env sid maxR n (j + fuel) =
        prependRun (pollTimes (n + 1) j) (mcpLoop env sid maxR (n + j) fuel) := by
  intro j
  induction j with
  | zero =>
    intro n fuel _
    simp [pollTimes, prependRun]
  | succ j ih =>
    intro n fuel h
    obtain ⟨s, hg, hd⟩ := okNotDone_eq_true (by simpa using h 0 (Nat.succ_pos j))
    rw [show j + 1 + fuel = (j + fuel) + 1 from by omega]
    rw [show n + (j + 1) = (n + 1) + j from by omega]
    have hrec : ∀ m, m < j → okNotDone env ((n + 1) + m) = true := fun m hm => by
      have := h (m + 1) (by omega)
      rwa [show n + (m + 1) = (n + 1) + m from by omega] at this
    simp only [mcpLoop, hg, hd]
    rw [ih (n + 1) fuel hrec, stepPre_prependRun]
    rfl

theorem cliLoop_reach_error (env : Env) (sid : List Char) {n : Nat} (k : Nat) {e : SplunkError}
    (hreach : ∀ m, m < n → okNotDone env m = true)
    (hg : getSearchStatus env n = .error e) :
    cliLoop env sid 0 (n + 1 + k) = ⟨n + 1, pollTimes 0 n ++ [2 * n], false, .pollError e⟩ := by
  rw [show n + 1 + k = n + (k + 1) from by omega,
    cliLoop_shift env sid n 0 (k + 1) (fun m hm => by simpa using hreach m hm),
    show (0 + n) = n from by omega, cliLoop_error_step env sid n k hg]
  simp [prependRun, pollTimes_length, Nat.add_comm]

theorem cliLoop_reach_done (env : Env) (sid : List Char) {n : Nat} (k : Nat) {s : JobStatus}
    (hreach : ∀ m, m < n → okNotDone env m = true)
    (hg : getSearchStatus env n = .ok s) (hd : s.isDone = true) :
    cliLoop env sid 0 (n + 1 + k) =
      match fetchResult env with
      | .error e => ⟨n + 1, pollTimes 0 n ++ [2 * n], true, .fetchError e⟩
      | .ok r => ⟨n + 1, pollTimes 0 n ++ [2 * n], true, .success s.resultCount r.results⟩ := by
  rw [show n + 1 + k = n + (k + 1) from by omega,
    cliLoop_shift env sid n 0 (k + 1) (fun m hm => by simpa using hreach m hm),
    show (0 + n) = n from by omega, cliLoop_done_step env sid n k hg hd]
  rcases fetchResult env with e | r <;>
    simp [prependRun, pollTimes_length, Nat.add_comm]

theorem mcpBudget_ge (env : Env) : 29 ≤ mcpBudget env := by
  unfold mcpBudget
  split <;> omega

theorem mcpBudget_le (env : Env) : mcpBudget env ≤ 30 := by
  unfold mcpBudget
  split <;> omega

theorem mcpLoop_reach_error (env : Env) (sid : List Char) (maxR : Int) {n : Nat}
    {e : SplunkError} (hn : n < 29)
    (hreach : ∀ m, m < n → okNotDone env m = true)
    (hg : getSearchStatus env n = .error e) :
    mcpLoop env sid maxR 0 (mcpBudget env) =
      ⟨n + 1, pollTimes 1 n ++ [2 * (n + 1)], false, toolErr (statusFailText ++ errMsg e)⟩ := by
  have hb := mcpBudget_ge env
  obtain ⟨k, hk⟩ : ∃ k, mcpBudget env = n + (k + 1) := ⟨mcpBudget env - n - 1, by omega⟩
  rw [hk, mcpLoop_shift env sid maxR n 0 (k + 1) (fun m hm => by simpa using hreach m hm),
    show (0 + n) = n from by omega, mcpLoop_error_step env sid maxR n k hg]
  simp [prependRun, pollTimes_length, Nat.add_comm]

theorem mcpLoop_reach_done (env : Env) (sid : List Char) (maxR : Int) {n : Nat}
    {s : JobStatus} (hn : n < 29)
    (hreach : ∀ m, m < n → okNotDone env m = true)
    (hg : getSearchStatus env n = .ok s) (hd : s.isDone = true) :
    mcpLoop env sid maxR 0 (mcpBudget env) =
      match fetchResult env with
      | .error e => ⟨n + 1, pollTimes 1 n ++ [2 * (n + 1)], true, toolErr (resultsFailText ++ errMsg e)⟩
      | .ok r =>
        ⟨n + 1, pollTimes 1 n ++ [2 * (n + 1)], true,
          toolText (mcpHeader s.resultCount ++ renderAll r.results)⟩ := by
  have hb := mcpBudget_ge env
  obtain ⟨k, hk⟩ : ∃ k, mcpBudget env = n + (k + 1) := ⟨mcpBudget env - n - 1, by omega⟩
  rw [hk, mcpLoop_shift env sid maxR n 0 (k + 1) (fun m hm => by simpa using hreach m hm),
    show (0 + n) = n from by omega, mcpLoop_done_step env sid maxR n k hg hd]
  rcases fetchResult env with e | r <;>
    simp [prependRun, pollTimes_length, Nat.add_comm]

theorem mcpLoop_reach_timeout (env : Env) (sid : List Char) (maxR : Int)
    (hreach : ∀ m, m < 30 → okNotDone env m = true) :
    mcpLoop env sid maxR 0 (mcpBudget env) =
      ⟨mcpBudget env, pollTimes 1 (mcpBudget env), false, toolErr timeoutText⟩ := by
  have hb := mcpBudget_le env
  have h := mcpLoop_shift env sid maxR (mcpBudget env) 0 0
    (fun m hm => by simpa using hreach m (by omega))
  rw [Nat.add_zero] at h
  rw [h]
  simp [mcpLoop, prependRun, pollTimes_length]

theorem runSearchModel_eq (env : Env) (fuel : Nat) (q : List Char) {sid : List Char}
    (hsub : runSearchCall env (normalizeQuery q) = .ok sid) :
    runSearchModel env fuel q =
      ⟨normalizeQuery q, (cliLoop env sid 0 fuel).reqs, (cliLoop env sid 0 fuel).times,
       (cliLoop env sid 0 fuel).fetched, (cliLoop env sid 0 fuel).out⟩ := by
  simp [runSearchModel, hsub]

theorem searchHandler_eq (env : Env) {req : CallToolRequest} {q sid : List Char}
    (hq : req.query = some q) (hsub : runSearchCall env (normalizeQuery q) = .ok sid) :
    searchHandler env req =
      ⟨some (normalizeQuery q),
       (mcpLoop env sid (req.maxResults.getD 100) 0 (mcpBudget env)).reqs,
       (mcpLoop env sid (req.maxResults.getD 100) 0 (mcpBudget env)).times,
       (mcpLoop env sid (req.maxResults.getD 100) 0 (mcpBudget env)).fetched,
       .ok (mcpLoop env sid (req.maxResults.getD 100) 0 (mcpBudget env)).out⟩ := by
  simp [searchHandler, hq, hsub]

theorem normalizeQuery_eq_ite (q : List Char) :
    normalizeQuery q =
      if searchKw.isPrefixOf (trimSpace q) = false ∧ pipeTok.isPrefixOf (trimSpace q) = false
      then kwSpace ++ q else q := by
  unfold normalizeQuery
  cases h1 : searchKw.isPrefixOf (trimSpace q) <;>
    cases h2 : pipeTok.isPrefixOf (trimSpace q) <;> simp [h1, h2]

theorem runSearchModel_submitted (env : Env) (fuel : Nat) (q : List Char) :
    (runSearchModel env fuel q).submitted = normalizeQuery q := by
  simp only [runSearchModel]
  split <;> rfl

theorem searchHandler_submitted (env : Env) (req : CallToolRequest) (q : List Char)
    (hq : req.query = some q) :
    (searchHandler env req).submitted = some (normalizeQuery q) := by
  simp only [searchHandler, hq]
  split <;> rfl

theorem pollTimes_offset (n : Nat) :
    pollTimes 1 n ++ [2 * (n + 1)] = (pollTimes 0 n ++ [2 * n]).map (· + 2) := by
  rw [List.map_append]
  have h1 : pollTimes 1 n = (pollTimes 0 n).map (· + 2) := pollTimes_shift_map n 0
  have h2 : 2 * (n + 1) = 2 * n + 2 := by omega
  rw [h1, h2]
  rfl

/- Claims. -/

/-- C1: for every query string, if the whitespace-trimmed query starts neither
with the literal `search` (case-sensitive) nor with `|`, the query submitted
by either front end is `search ` concatenated with the original untrimmed
query; otherwise the query is submitted unchanged. -/
theorem submitted_query_normalized :
    (∀ env fuel q, (runSearchModel env fuel q).submitted =
      if searchKw.isPrefixOf (trimSpace q) = false ∧ pipeTok.isPrefixOf (trimSpace q) = false
      then kwSpace ++ q else q) ∧
    (∀ env req q, req.query = some q → (searchHandler env req).submitted =
      some (if searchKw.isPrefixOf (trimSpace q) = false ∧
          pipeTok.isPrefixOf (trimSpace q) = false
        then kwSpace ++ q else q)) := by
  constructor
  · intro env fuel q
    rw [runSearchModel_submitted, normalizeQuery_eq_ite]
  · intro env req q hq
    rw [searchHandler_submitted env req q hq, normalizeQuery_eq_ite]

/-- Witness for C1 at the spec's scenario query `error`. -/
theorem submitted_query_normalized_w :
    (runSearchModel envOk 1 qError).submitted = kwSpace ++ qError ∧
    (searchHandler envOk (reqQ qError)).submitted = some (kwSpace ++ qError) := by
  constructor
  · rw [submitted_query_normalized.1 envOk 1 qError]
    decide
  · rw [submitted_query_normalized.2 envOk (reqQ qError) qError rfl]
    decide

/-- C7: normalization is idempotent, and a query whose trimmed text starts
neither with the keyword nor with a pipe normalizes to the keyword followed
by a single space and the query. -/
theorem normalization_idempotent :
    (∀ q, normalizeQuery (normalizeQuery q) = normalizeQuery q) ∧
    (∀ q, searchKw.isPrefixOf (trimSpace q) = false →
      pipeTok.isPrefixOf (trimSpace q) = false →
      normalizeQuery q = kwSpace ++ q) := by
  constructor
  · intro q
    by_cases hc : (!(searchKw.isPrefixOf (trimSpace q)) &&
        !(pipeTok.isPrefixOf (trimSpace q))) = true
    · have h1 : normalizeQuery q = kwSpace ++ q := by
        unfold normalizeQuery
        rw [if_pos hc]
      rw [h1]
      unfold normalizeQuery
      rw [kw_prefix_trim_prepend q]
      simp
    · have h1 : normalizeQuery q = q := by
        unfold normalizeQuery
        rw [if_neg hc]
      rw [h1]
      exact h1
  · intro q h1 h2
    unfold normalizeQuery
    simp [h1, h2]

/-- Witness for C7 at the query `error`. -/
theorem normalization_idempotent_w :
    normalizeQuery (normalizeQuery qError) = normalizeQuery qError ∧
    normalizeQuery qError = kwSpace ++ qError :=
  ⟨normalization_idempotent.1 qError,
   normalization_idempotent.2 qError (by decide) (by decide)⟩

/-- C8: the results request issued by `GetSearchResults` carries no `count`
parameter when `maxCount` is zero or negative, and carries exactly the given
value when positive. -/
theorem fetch_count_parameter :
    (∀ env sid c, (getSearchResults env sid c).1 = searchResultsPath sid c) ∧
    (∀ sid (c : Int), c ≤ 0 →
      searchResultsPath sid c =
        "/services/search/jobs/".toList ++ sid ++ "/results?output_mode=json".toList) ∧
    (∀ sid (c : Int), 0 < c →
      searchResultsPath sid c =
        "/services/search/jobs/".toList ++ sid ++ "/results?output_mode=json".toList ++
          "&count=".toList ++ (toString c).toList) := by
  refine ⟨fun env sid c => rfl, fun sid c hc => ?_, fun sid c hc => ?_⟩
  · unfold searchResultsPath
    rw [if_neg (by omega)]
  · unfold searchResultsPath
    rw [if_pos hc]

/-- Witness for C8 at `count = 0` and `count = 5`. -/
theorem fetch_count_parameter_w :
    searchResultsPath sidOne 0 =
      "/services/search/jobs/".toList ++ sidOne ++ "/results?output_mode=json".toList ∧
    searchResultsPath sidOne 5 =
      "/services/search/jobs/".toList ++ sidOne ++ "/results?output_mode=json".toList ++
        "&count=".toList ++ (toString (5 : Int)).toList :=
  ⟨fetch_count_parameter.2.1 sidOne 0 (by decide),
   fetch_count_parameter.2.2 sidOne 5 (by decide)⟩

/-- C10: the non-empty-after-trim precondition is not enforced: a query that
trims to nothing is not rejected by either front end; it is normalized to
`search ` followed by the original text and submitted, and with a healthy
remote the run succeeds. -/
theorem empty_query_not_rejected :
    ∀ q, trimSpace q = [] →
      (∀ env fuel, (runSearchModel env fuel q).submitted = kwSpace ++ q) ∧
      (∀ env req, req.query = some q →
        (searchHandler env req).submitted = some (kwSpace ++ q)) ∧
      (runSearchModel envOk 1 q).outcome = .success 3 okRows ∧
      (searchHandler envOk (reqQ q)).result =
        .ok (toolText (mcpHeader 3 ++ renderAll okRows)) := by
  intro q hq
  have hcond : (!(searchKw.isPrefixOf (trimSpace q)) &&
      !(pipeTok.isPrefixOf (trimSpace q))) = true := by
    rw [hq]
    decide
  have hnorm : normalizeQuery q = kwSpace ++ q := by
    unfold normalizeQuery
    rw [if_pos hcond]
  refine ⟨fun env fuel => ?_, fun env req hq2 => ?_, ?_, ?_⟩
  · rw [runSearchModel_submitted, hnorm]
  · rw [searchHandler_submitted env req q hq2, hnorm]
  · rw [@runSearchModel_eq envOk 1 q sidOne rfl]
    rfl
  · rw [@searchHandler_eq envOk (reqQ q) q sidOne rfl rfl]
    rfl

/-- C4: in the tool-call path, if no snapshot within the 60-second deadline
reports done, the poller times out: the handler returns (with a nil Go
error) an error-flagged result carrying exactly the message
`Search timed out after 60 seconds`, and the Result Fetcher is never
invoked. -/
theorem mcp_timeout_claim :
    ∀ env req q sid, req.query = some q →
      runSearchCall env (normalizeQuery q) = .ok sid →
      (∀ n, n < 30 → okNotDone env n = true) →
      (searchHandler env req).result = .ok (toolErr timeoutText) ∧
      (searchHandler env req).fetched = false ∧
      (searchHandler env req).statusReqs = mcpBudget env := by
  intro env req q sid hq hsub hreach
  rw [searchHandler_eq env hq hsub,
    mcpLoop_reach_timeout env sid (req.maxResults.getD 100) hreach]
  exact ⟨rfl, rfl, rfl⟩

/-- Witness for C4 on a job that never reports done. -/
theorem mcp_timeout_claim_w :
    (searchHandler envRun (reqQ qError)).result = .ok (toolErr timeoutText) ∧
    (searchHandler envRun (reqQ qError)).fetched = false := by
  have h := mcp_timeout_claim envRun (reqQ qError) qError sidOne rfl rfl (fun n hn => rfl)
  exact ⟨h.1, h.2.1⟩

/-- C5: a failing status request (transport failure, non-success HTTP status
with code and body preserved, or decode failure) terminates either poll loop
at once: exactly that one more request was issued, no retry happens, and the
Result Fetcher is never invoked; an HTTP 500 response surfaces as the
remote-rejection error preserving status code and body. -/
theorem poll_failure_terminal :
    (∀ env sid q (n k : Nat) (e : SplunkError),
      runSearchCall env (normalizeQuery q) = .ok sid →
      (∀ m, m < n → okNotDone env m = true) →
      getSearchStatus env n = .error e →
      runSearchModel env (n + 1 + k) q =
        ⟨normalizeQuery q, n + 1, pollTimes 0 n ++ [2 * n], false, .pollError e⟩) ∧
    (∀ env req q sid (n : Nat) (e : SplunkError),
      req.query = some q →
      runSearchCall env (normalizeQuery q) = .ok sid →
      n < 29 →
      (∀ m, m < n → okNotDone env m = true) →
      getSearchStatus env n = .error e →
      searchHandler env req =
        ⟨some (normalizeQuery q), n + 1, pollTimes 1 n ++ [2 * (n + 1)], false,
          .ok (toolErr (statusFailText ++ errMsg e))⟩) ∧
    (∀ (st : Nat) (b : List Char), 400 ≤ st →
      doRequest false (.response st b) = .error (.remoteRejected st b)) := by
  refine ⟨?_, ?_, ?_⟩
  · intro env sid q n k e hsub hreach hg
    rw [runSearchModel_eq env (n + 1 + k) q hsub, cliLoop_reach_error env sid k hreach hg]
  · intro env req q sid n e hq hsub hn hreach hg
    rw [searchHandler_eq env hq hsub,
      mcpLoop_reach_error env sid (req.maxResults.getD 100) hn hreach hg]
  · intro st b hst
    simp [doRequest, hst]

/-- Witness for C5: HTTP 500 with body `boom` on the first tick. -/
theorem poll_failure_terminal_w :
    runSearchModel envHttp500 1 qError =
      ⟨normalizeQuery qError, 1, [0], false,
        .pollError (.remoteRejected 500 ("boom".toList))⟩ ∧
    searchHandler envHttp500 (reqQ qError) =
      ⟨some (normalizeQuery qError), 1, [2], false,
        .ok (toolErr (statusFailText ++ errMsg (.remoteRejected 500 ("boom".toList))))⟩ ∧
    doRequest false (.response 500 ("boom".toList)) =
      .error (.remoteRejected 500 ("boom".toList)) := by
  refine ⟨?_, ?_, ?_⟩
  · have h := poll_failure_terminal.1 envHttp500 sidOne qError 0 0
      (.remoteRejected 500 ("boom".toList)) rfl (fun m hm => by omega) rfl
    simpa [pollTimes] using h
  · have h := poll_failure_terminal.2.1 envHttp500 (reqQ qError) qError sidOne 0
      (.remoteRejected 500 ("boom".toList)) rfl rfl (by decide) (fun m hm => by omega) rfl
    simpa [pollTimes] using h
  · exact poll_failure_terminal.2.2 500 ("boom".toList) (by decide)

/-- C9: the tool-call boundary returns every domain failure — missing query
argument, submit failure, poll timeout, fetch failure — as a successful
protocol response (`nil` Go error) carrying the error flag and a
human-readable message; the handler never returns a protocol-level error. -/
theorem tool_call_domain_failures :
    (∀ env req, (searchHandler env req).result.isOk = true) ∧
    (∀ env req, req.query = none →
      (searchHandler env req).result = .ok (toolErr missingQueryText)) ∧
    (∀ env req q e, req.query = some q →
      runSearchCall env (normalizeQuery q) = .error e →
      (searchHandler env req).result = .ok (toolErr (runFailText ++ errMsg e))) ∧
    (∀ env req q sid, req.query = some q →
      runSearchCall env (normalizeQuery q) = .ok sid →
      (∀ n, n < 30 → okNotDone env n = true) →
      (searchHandler env req).result = .ok (toolErr timeoutText)) ∧
    (∀ env req q sid (n : Nat) (s : JobStatus) e, req.query = some q →
      runSearchCall env (normalizeQuery q) = .ok sid →
      n < 29 → (∀ m, m < n → okNotDone env m = true) →
      getSearchStatus env n = .ok s → s.isDone = true →
      fetchResult env = .error e →
      (searchHandler env req).result = .ok (toolErr (resultsFailText ++ errMsg e))) := by
  refine ⟨?_, ?_, ?_, ?_, ?_⟩
  · intro env req
    rcases hq : req.query with _ | q
    · simp [searchHandler, hq, Except.isOk, Except.toBool]
    · rcases hsub : runSearchCall env (normalizeQuery q) with e | sid <;>
        simp [searchHandler, hq, hsub, Except.isOk, Except.toBool]
  · intro env req hq
    simp [searchHandler, hq]
  · intro env req q e hq hsub
    simp [searchHandler, hq, hsub]
  · intro env req q sid hq hsub hreach
    rw [searchHandler_eq env hq hsub,
      mcpLoop_reach_timeout env sid (req.maxResults.getD 100) hreach]
  · intro env req q sid n s e hq hsub hn hreach hg hd hf
    rw [searchHandler_eq env hq hsub,
      mcpLoop_reach_done env sid (req.maxResults.getD 100) hn hreach hg hd, hf]

/-- Witness for C9: one concrete run per failure class. -/
theorem tool_call_domain_failures_w :
    (searchHandler envOk ⟨none, none, none, none⟩).result = .ok (toolErr missingQueryText) ∧
    (searchHandler envSubmitFail (reqQ qError)).result =
      .ok (toolErr (runFailText ++ errMsg (.transportFailure ("no route to host".toList)))) ∧
    (searchHandler envRun (reqQ qError)).result = .ok (toolErr timeoutText) ∧
    (searchHandler envFetchFail (reqQ qError)).result =
      .ok (toolErr (resultsFailText ++ errMsg (.remoteRejected 503 ("busy".toList)))) := by
  refine ⟨?_, ?_, ?_, ?_⟩
  · exact tool_call_domain_failures.2.1 envOk ⟨none, none, none, none⟩ rfl
  · exact tool_call_domain_failures.2.2.1 envSubmitFail (reqQ qError) qError
      (.transportFailure ("no route to host".toList)) rfl rfl
  · exact tool_call_domain_failures.2.2.2.1 envRun (reqQ qError) qError sidOne rfl rfl
      (fun n hn => rfl)
  · exact tool_call_domain_failures.2.2.2.2 envFetchFail (reqQ qError) qError sidOne 0
      statusDone3 (.remoteRejected 503 ("busy".toList)) rfl rfl (by decide)
      (fun m hm => by omega) rfl rfl rfl

/-- C3 counterexample: with the context cancelled between the first and the
second tick (`envCancel1`), the command-line poller still issues a second
status request — so it is false that, after a cancellation observed between
two ticks, no further status requests are issued and the loop ends in a
distinct Cancelled outcome: it ends as a poll error on the next request. -/
theorem cancellation_counterexample :
    (runSearchModel envCancel1 5 qError).statusReqs = 2 ∧
    ¬ ((runSearchModel envCancel1 5 qError).statusReqs ≤ 1) ∧
    (runSearchModel envCancel1 5 qError).outcome =
      .pollError (.transportFailure ctxCanceledText) := by
  refine ⟨rfl, ?_, rfl⟩
  decide

/-- C3 (amended): a cancellation observed between two ticks does not stop the
poller at the tick boundary; on the next tick each loop issues exactly one
further status request, which fails immediately on the cancelled context
(without network activity), the loop terminates with that poll error, and the
Result Fetcher is never invoked. -/
theorem cancellation_next_tick :
    ∀ env q req sid (k j : Nat), env.cancelAt = some k →
      req.query = some q →
      runSearchCall env (normalizeQuery q) = .ok sid →
      (∀ m, m < k → okNotDone env m = true) →
      k < 29 →
      (runSearchModel env (k + 1 + j) q).statusReqs = k + 1 ∧
      (runSearchModel env (k + 1 + j) q).outcome =
        .pollError (.transportFailure ctxCanceledText) ∧
      (runSearchModel env (k + 1 + j) q).fetched = false ∧
      (searchHandler env req).statusReqs = k + 1 ∧
      (searchHandler env req).result =
        .ok (toolErr (statusFailText ++ errMsg (.transportFailure ctxCanceledText))) ∧
      (searchHandler env req).fetched = false := by
  intro env q req sid k j hc hq hsub hreach hk
  have hcan : cancelledAt env k = true := by
    unfold cancelledAt
    rw [hc]
    simp
  have hg : getSearchStatus env k = .error (.transportFailure ctxCanceledText) := by
    unfold getSearchStatus
    rw [hcan]
    rfl
  rw [runSearchModel_eq env (k + 1 + j) q hsub, cliLoop_reach_error env sid j hreach hg,
    searchHandler_eq env hq hsub,
    mcpLoop_reach_error env sid (req.maxResults.getD 100) hk hreach hg]
  exact ⟨rfl, rfl, rfl, rfl, rfl, rfl⟩

/-- Witness for C3 (amended) at `envCancel1`. -/
theorem cancellation_next_tick_w :
    (runSearchModel envCancel1 5 qError).fetched = false ∧
    (searchHandler envCancel1 (reqQ qError)).statusReqs = 2 ∧
    (searchHandler envCancel1 (reqQ qError)).result =
      .ok (toolErr (statusFailText ++ errMsg (.transportFailure ctxCanceledText))) := by
  have h := cancellation_next_tick envCancel1 qError (reqQ qError) sidOne 1 3 rfl rfl rfl
    (fun m hm => by
      have hm0 : m = 0 := by omega
      subst hm0
      rfl)
    (by decide)
  exact ⟨h.2.2.1, h.2.2.2.1, h.2.2.2.2.1⟩

/-- C2 counterexample: the two front ends do not issue status requests at the
same tick points — on a job that is done at the first snapshot, the
command-line loop issues its only status request at time 0 (immediately
after submission) while the tool-call loop issues it at time 2 (after the
first ticker fire). -/
theorem tick_points_differ :
    (runSearchModel envOk 1 qError).reqTimes = [0] ∧
    (searchHandler envOk (reqQ qError)).reqTimes = [2] ∧
    (runSearchModel envOk 1 qError).reqTimes ≠ (searchHandler envOk (reqQ qError)).reqTimes := by
  refine ⟨rfl, rfl, ?_⟩
  decide

/-- C2 (amended): both loops consume the same status-snapshot sequence in the
same order and — whenever the first terminal event (status failure or done
snapshot) occurs within the tool-call deadline — issue the same number of
status requests, never invoke the Result Fetcher except on done, and reach
corresponding terminal outcomes; but every tool-call request time is offset
by one 2-second interval from the command-line request time. -/
theorem pollers_agree_modulo_offset :
    (∀ env req q sid (n k : Nat) (e : SplunkError),
      req.query = some q →
      runSearchCall env (normalizeQuery q) = .ok sid →
      n < 29 →
      (∀ m, m < n → okNotDone env m = true) →
      getSearchStatus env n = .error e →
      (searchHandler env req).statusReqs = (runSearchModel env (n + 1 + k) q).statusReqs ∧
      (searchHandler env req).reqTimes = (runSearchModel env (n + 1 + k) q).reqTimes.map (· + 2) ∧
      (runSearchModel env (n + 1 + k) q).outcome = .pollError e ∧
      (searchHandler env req).result = .ok (toolErr (statusFailText ++ errMsg e)) ∧
      (searchHandler env req).fetched = (runSearchModel env (n + 1 + k) q).fetched) ∧
    (∀ env req q sid (n k : Nat) (s : JobStatus),
      req.query = some q →
      runSearchCall env (normalizeQuery q) = .ok sid →
      n < 29 →
      (∀ m, m < n → okNotDone env m = true) →
      getSearchStatus env n = .ok s → s.isDone = true →
      (searchHandler env req).statusReqs = (runSearchModel env (n + 1 + k) q).statusReqs ∧
      (searchHandler env req).reqTimes = (runSearchModel env (n + 1 + k) q).reqTimes.map (· + 2) ∧
      (searchHandler env req).fetched = (runSearchModel env (n + 1 + k) q).fetched ∧
      ((runSearchModel env (n + 1 + k) q).outcome =
        match fetchResult env with
        | .error e => .fetchError e
        | .ok r => .success s.resultCount r.results) ∧
      ((searchHandler env req).result =
        .ok (match fetchResult env with
          | .error e => toolErr (resultsFailText ++ errMsg e)
          | .ok r => toolText (mcpHeader s.resultCount ++ renderAll r.results)))) := by
  constructor
  · intro env req q sid n k e hq hsub hn hreach hg
    rw [runSearchModel_eq env (n + 1 + k) q hsub, cliLoop_reach_error env sid k hreach hg,
      searchHandler_eq env hq hsub,
      mcpLoop_reach_error env sid (req.maxResults.getD 100) hn hreach hg]
    exact ⟨rfl, pollTimes_offset n, rfl, rfl, rfl⟩
  · intro env req q sid n k s hq hsub hn hreach hg hd
    rw [runSearchModel_eq env (n + 1 + k) q hsub, cliLoop_reach_done env sid k hreach hg hd,
      searchHandler_eq env hq hsub,
      mcpLoop_reach_done env sid (req.maxResults.getD 100) hn hreach hg hd]
    rcases hf : fetchResult env with e | r <;>
      exact ⟨rfl, pollTimes_offset n, rfl, rfl, rfl⟩

/-- Witness for C2 (amended): a failing first tick and a done first tick. -/
theorem pollers_agree_modulo_offset_w :
    ((searchHandler envHttp500 (reqQ qError)).statusReqs =
        (runSearchModel envHttp500 1 qError).statusReqs ∧
      (searchHandler envHttp500 (reqQ qError)).reqTimes =
        (runSearchModel envHttp500 1 qError).reqTimes.map (· + 2)) ∧
    ((searchHandler envOk (reqQ qError)).statusReqs =
        (runSearchModel envOk 1 qError).statusReqs ∧
      (searchHandler envOk (reqQ qError)).result =
        .ok (toolText (mcpHeader 3 ++ renderAll okRows))) := by
  constructor
  · have h := pollers_agree_modulo_offset.1 envHttp500 (reqQ qError) qError sidOne 0 0
      (.remoteRejected 500 ("boom".toList)) rfl rfl (by decide) (fun m hm => by omega) rfl
    exact ⟨h.1, h.2.1⟩
  · have h := pollers_agree_modulo_offset.2 envOk (reqQ qError) qError sidOne 0 0 statusDone3
      rfl rfl (by decide) (fun m hm => by omega) rfl rfl
    refine ⟨h.1, ?_⟩
    rw [h.2.2.2.2]
    rfl

/-- C6 counterexample: a ResultRow is a Go map, whose iteration order is not
fixed; two renderings of the same result set — same rows, each row the same
field-to-value map, visited in two orders the map may legally produce —
yield different output text, so rendering is not a function of the result
set with a fixed field order. -/
theorem render_order_counterexample :
    List.Forall₂ (fun (a b : ResultRow) => a.Perm b) [rowAB] [rowAB] ∧
    List.Forall₂ (fun (a b : ResultRow) => a.Perm b) [rowAB] [rowBA] ∧
    renderAll [rowAB] ≠ renderAll [rowBA] := by
  refine ⟨?_, ?_, ?_⟩
  · exact List.Forall₂.cons (List.Perm.refl _) List.Forall₂.nil
  · refine List.Forall₂.cons ?_ List.Forall₂.nil
    decide
  · decide

/-- C6 (amended): rendering preserves the server's row order and renders each
field of a row exactly once, but the field order within a row follows the Go
map's unspecified iteration order: any two renderings of the same result set
agree per row (in order) on the multiset of emitted field lines. -/
theorem render_fields_perm :
    ∀ (rows l1 l2 : List ResultRow),
      List.Forall₂ (fun a b => a.Perm b) rows l1 →
      List.Forall₂ (fun a b => a.Perm b) rows l2 →
      List.Forall₂ (fun a b => (a.map fieldLine).Perm (b.map fieldLine)) l1 l2 := by
  intro rows l1 l2 h1 h2
  induction h1 generalizing l2 with
  | nil =>
    cases h2
    exact List.Forall₂.nil
  | cons ha hl ih =>
    cases h2 with
    | cons hb hl2 => exact List.Forall₂.cons ((ha.symm.trans hb).map fieldLine) (ih _ hl2)

/-- Witness for C6 (amended) on the two iteration orders of `rowAB`. -/
theorem render_fields_perm_w :
    List.Forall₂ (fun (a b : ResultRow) => (a.map fieldLine).Perm (b.map fieldLine))
      [rowAB] [rowBA] := by
  apply render_fields_perm [rowAB] [rowAB] [rowBA]
  · exact List.Forall₂.cons (List.Perm.refl _) List.Forall₂.nil
  · refine List.Forall₂.cons ?_ List.Forall₂.nil
    decide

/-- Witness for C10 at the empty query. -/
theorem empty_query_not_rejected_w :
    trimSpace ([] : List Char) = [] ∧
    (runSearchModel envOk 1 ([] : List Char)).outcome = .success 3 okRows ∧
    (searchHandler envOk (reqQ ([] : List Char))).result =
      .ok (toolText (mcpHeader 3 ++ renderAll okRows)) := by
  refine ⟨rfl, ?_, ?_⟩
  · exact (empty_query_not_rejected [] rfl).2.2.1
  · exact (empty_query_not_rejected [] rfl).2.2.2

end SplunkCLI
